import Mathlib

/-!
Verification of the `bank-barcode` crate (src/lib.rs): a shallow embedding of
the barcode builder, validator and string encoder, together with proofs of the
specified properties.

Modelling conventions:
* Rust `String`/`&str` values are Lean `String`s.  All strings manipulated by
  the library after validation are ASCII, so Rust byte indexing (`s[2..]`,
  `s.len()`) coincides with character indexing; the embedding works on
  `String.data` (the character list).
* Rust machine integers become `Nat` (`u32`, `u8`, `u128`) and `Int` (`i32`);
  overflow is modelled explicitly where the source can overflow (the `u128`
  reference parse).
* Fallible operations return `Option`/`Except`.
-/

/-- Character list of a string (Rust `str::len` counts bytes, but every string
whose length the source inspects is ASCII, where bytes = chars). -/
def strLen (s : String) : Nat := s.data.length

/-- First `n` characters, Rust `&s[..n]` on ASCII strings. -/
def strTake (s : String) (n : Nat) : String := ⟨s.data.take n⟩

/-- All but the first `n` characters, Rust `&s[n..]` on ASCII strings. -/
def strDrop (s : String) (n : Nat) : String := ⟨s.data.drop n⟩

/-- Rust format specifier `{:0>w}`: pad on the left with zeros to width `w`
(strings longer than `w` are kept unchanged). -/
def padLeftZeros (s : String) (w : Nat) : String :=
  ⟨List.replicate (w - s.data.length) '0' ++ s.data⟩

/-- Rust format specifier `{:0<w}`: pad on the right with zeros to width `w`. -/
def padRightZeros (s : String) (w : Nat) : String :=
  ⟨s.data ++ List.replicate (w - s.data.length) '0'⟩

/-- Rust `str::starts_with` for a literal pattern. -/
def strStartsWith (s p : String) : Bool :=
  decide (s.data.take p.data.length = p.data)

/-- ASCII decimal digit test (Rust `char::to_digit(10)` succeeds). -/
def isDigitChar (c : Char) : Bool := 48 ≤ c.toNat && c.toNat ≤ 57

/-- ASCII uppercase letter test. -/
def isUpperAlpha (c : Char) : Bool := 65 ≤ c.toNat && c.toNat ≤ 90

/-- The digit character for `n < 10`. -/
def digitChar (n : Nat) : Char := Char.ofNat (48 + n)

/-- Decimal rendering of a natural number, least significant digit first into
the accumulator; structural in the fuel so that the kernel can evaluate it.
Models Rust `Display` for unsigned integers. -/
def natDigitsCore : Nat → Nat → List Char → List Char
  | 0, _, acc => acc
  | fuel + 1, n, acc =>
    if n / 10 = 0 then digitChar (n % 10) :: acc
    else natDigitsCore fuel (n / 10) (digitChar (n % 10) :: acc)

/-- Decimal rendering of a natural number, Rust `format!("{}", n)`. -/
def natToString (n : Nat) : String := ⟨natDigitsCore (n + 1) n []⟩

/-- `u128::MAX`. -/
def U128MAX : Nat := 340282366920938463463374607431768211455

/-- Numeric value of a digit character. -/
def charDigit (c : Char) : Nat := c.toNat - 48

/-- Value of a digit string, most significant digit first. -/
def digitsVal (cs : List Char) : Nat :=
  cs.foldl (fun acc c => acc * 10 + charDigit c) 0

/-- Rust `str::parse::<u128>()`, as used by the validator.  The source accepts
an optional leading `'+'` (Rust's unsigned `FromStr` does), requires at least
one character after it, requires every remaining character to be a decimal
digit, and fails on overflow past `u128::MAX`.  Rust checks overflow step by
step, which for a digit string is equivalent to comparing the final value
against the maximum, since the accumulated value only grows. -/
def parseU128 (s : String) : Option Nat :=
  let digits : List Char :=
    match s.data with
    | c :: rest => if c = '+' then rest else c :: rest
    | [] => []
  match digits with
  | [] => none
  | _ =>
    if digits.all isDigitChar then
      if digitsVal digits ≤ U128MAX then some (digitsVal digits) else none
    else none

/-- ISO 13616 mod-97 checksum state machine over the rearranged IBAN: digits
contribute one decimal place, letters (mapped to 10..35) two. -/
def mod97 (cs : List Char) : Nat :=
  cs.foldl
    (fun acc c =>
      if isDigitChar c then (acc * 10 + (c.toNat - 48)) % 97
      else (acc * 100 + (c.toNat - 55)) % 97)
    0

/-- Validity check performed by the external `iban` crate on the canonical
(space-free) form: basic shape, the country-specific registry format (for
`FI`: 16 digits after the country code, total length 18), and the mod-97
checksum over the string rotated by four characters. -/
def ibanCheck (s : String) : Bool :=
  decide (4 ≤ s.data.length) && decide (s.data.length ≤ 34)
  && (s.data.take 2).all isUpperAlpha
  && ((s.data.drop 2).take 2).all isDigitChar
  && s.data.all (fun c => isDigitChar c || isUpperAlpha c)
  && (if s.data.take 2 = ['F', 'I'] then
        decide (s.data.length = 18) && (s.data.drop 2).all isDigitChar
      else true)
  && decide (mod97 (s.data.drop 4 ++ s.data.take 4) = 1)

/-- A validated IBAN (the external collaborator's `iban::Iban`): the canonical
electronic string together with the evidence that it passed validation.  Every
value of the Rust type carries this invariant. -/
structure Iban where
  s : String
  valid : ibanCheck s = true

/-- `iban::Iban::country_code`: the first two characters. -/
def countryCode (i : Iban) : String := strTake i.s 2

/-- Parsing an IBAN from user input: spaces are tolerated in arbitrary
grouping and removed, then the canonical form is validated. -/
def parseIban (raw : String) : Option Iban :=
  let t : String := ⟨raw.data.filter (fun c => c ≠ ' ')⟩
  if h : ibanCheck t = true then some ⟨t, h⟩ else none

/-- Gregorian leap-year rule used by the `time` crate. -/
def isLeapYear (y : Int) : Bool :=
  y % 4 = 0 && (y % 100 ≠ 0 || y % 400 = 0)

/-- Days in a month, per the `time` crate (0 for an out-of-range month, which
`fromCalendarDate` rejects anyway). -/
def daysInMonth (y : Int) (m : Nat) : Nat :=
  match m with
  | 1 => 31
  | 2 => if isLeapYear y then 29 else 28
  | 3 => 31
  | 4 => 30
  | 5 => 31
  | 6 => 30
  | 7 => 31
  | 8 => 31
  | 9 => 30
  | 10 => 31
  | 11 => 30
  | 12 => 31
  | _ => 0

/-- A `time::Date`: the Rust type only holds validated dates, so the
invariants are carried as fields. -/
structure Date where
  year : Int
  month : Nat
  day : Nat
  hm1 : 1 ≤ month
  hm2 : month ≤ 12
  hd1 : 1 ≤ day
  hd2 : day ≤ daysInMonth year month
  hy1 : -9999 ≤ year
  hy2 : year ≤ 9999

/-- `Month::try_from` followed by `Date::from_calendar_date`: month must be
1..=12, the day must exist in that month, and the year must be within the
`time` crate's supported range; any failure is a component-range error. -/
def fromCalendarDate (year : Int) (month day : Nat) : Option Date :=
  if h : 1 ≤ month ∧ month ≤ 12 ∧ 1 ≤ day ∧ day ≤ daysInMonth year month
        ∧ -9999 ≤ year ∧ year ≤ 9999 then
    some ⟨year, month, day, h.1, h.2.1, h.2.2.1, h.2.2.2.1, h.2.2.2.2.1, h.2.2.2.2.2⟩
  else none

/-- `BarcodeVersion` (src/lib.rs): the two layout versions; V5 is the default. -/
inductive BarcodeVersion where
  | V4
  | V5
  deriving DecidableEq, Repr

/-- The validated record `Barcode` (src/lib.rs). -/
structure Barcode where
  version : BarcodeVersion
  account_number : Iban
  euros : Nat
  cents : Nat
  reference : String
  due_date : Option Date

/-- The staged configuration `BarcodeBuilder` (src/lib.rs).  `account_number`
is either an already validated `Iban` (`Sum.inl`, Rust `Either::Left`) or a
raw string (`Sum.inr`, Rust `Either::Right`); `due_date` is either a resolved
date or a `(year, month, day)` triple. -/
structure BarcodeBuilder where
  version : BarcodeVersion
  account_number : Option (Sum Iban String)
  euros : Nat
  cents : Nat
  reference : Option String
  due_date : Option (Sum Date (Int × Nat × Nat))

/-- `BarcodeBuilder::default()`: V5, nothing set, zero euros and cents. -/
def defaultBuilder : BarcodeBuilder :=
  ⟨BarcodeVersion.V5, none, 0, 0, none, none⟩

/-- `BuilderError` (src/lib.rs); error payloads are dropped. -/
inductive BuilderError where
  | NoAccount
  | InvalidAccount
  | AccountNotFinnish
  | SumTooLarge
  | InvalidCents
  | ReferenceTooLarge
  | InvalidReference
  | MalformedReference
  | InvalidDate
  deriving DecidableEq, Repr

/-- Setter `BarcodeBuilder::version`. -/
def setVersion (b : BarcodeBuilder) (version : BarcodeVersion) : BarcodeBuilder :=
  { b with version }

/-- Setter `BarcodeBuilder::account_number` (raw string form). -/
def setAccountNumber (b : BarcodeBuilder) (account : String) : BarcodeBuilder :=
  { b with account_number := some (Sum.inr account) }

/-- Setter `BarcodeBuilder::account_number_iban` (pre-validated form). -/
def setAccountNumberIban (b : BarcodeBuilder) (account : Iban) : BarcodeBuilder :=
  { b with account_number := some (Sum.inl account) }

/-- Setter `BarcodeBuilder::euros`. -/
def setEuros (b : BarcodeBuilder) (euros : Nat) : BarcodeBuilder :=
  { b with euros }

/-- Setter `BarcodeBuilder::cents`. -/
def setCents (b : BarcodeBuilder) (cents : Nat) : BarcodeBuilder :=
  { b with cents }

/-- Setter `BarcodeBuilder::sum`: overwrites euros and cents with the split of
the total minor-unit amount.  The Rust cast `(sum % 100) as u8` never loses
information since `sum % 100 < 100 < 256`. -/
def setSum (b : BarcodeBuilder) (sum : Nat) : BarcodeBuilder :=
  { b with euros := sum / 100, cents := sum % 100 }

/-- Setter `BarcodeBuilder::reference`. -/
def setReference (b : BarcodeBuilder) (reference : String) : BarcodeBuilder :=
  { b with reference := some reference }

/-- Setter `BarcodeBuilder::due_date` (resolved date form). -/
def setDueDate (b : BarcodeBuilder) (due_date : Date) : BarcodeBuilder :=
  { b with due_date := some (Sum.inl due_date) }

/-- Setter `BarcodeBuilder::calendar_due_date` (calendar triple form). -/
def setCalendarDueDate (b : BarcodeBuilder) (year : Int) (month day : Nat) :
    BarcodeBuilder :=
  { b with due_date := some (Sum.inr (year, month, day)) }

/-- First stage of `BarcodeBuilder::build`: resolve the account number.  A
pre-validated IBAN is used as is, a raw string is parsed (failure is
`InvalidAccount`), and a missing account is `NoAccount`. -/
def resolveAccount : Option (Sum Iban String) → Except BuilderError Iban
  | some (Sum.inl iban) => .ok iban
  | some (Sum.inr number) =>
    match parseIban number with
    | some iban => .ok iban
    | none => .error .InvalidAccount
  | none => .error .NoAccount

/-- Reference stage of `BarcodeBuilder::build`.  For V4 a supplied reference
must parse as `u128`, then the raw string (default `"0"`) must have length at
most 20.  For V5 the reference (default `"RF00"`) must start with `"RF"`, the
remainder after that prefix must parse as `u128`, and that remainder (which
becomes the stored reference) must have length at most 23.  All length checks
are on strings that already parsed as `u128`, hence ASCII. -/
def resolveReference : BarcodeVersion → Option String → Except BuilderError String
  | .V4, reference =>
    match reference with
    | some rn =>
      match parseU128 rn with
      | none => .error .InvalidReference
      | some _ =>
        if strLen rn > 20 then .error .ReferenceTooLarge else .ok rn
    | none =>
      if strLen "0" > 20 then .error .ReferenceTooLarge else .ok "0"
  | .V5, reference =>
    let reference_rf := reference.getD "RF00"
    if strStartsWith reference_rf "RF" then
      match parseU128 (strDrop reference_rf 2) with
      | none => .error .InvalidReference
      | some _ =>
        if strLen (strDrop reference_rf 2) > 23 then .error .ReferenceTooLarge
        else .ok (strDrop reference_rf 2)
    else .error .MalformedReference

/-- Due-date stage of `BarcodeBuilder::build`: a resolved date is kept, a
calendar triple is validated (failure is `InvalidDate`), absence is kept. -/
def resolveDueDate : Option (Sum Date (Int × Nat × Nat)) →
    Except BuilderError (Option Date)
  | some (Sum.inl date) => .ok (some date)
  | some (Sum.inr (year, month, day)) =>
    match fromCalendarDate year month day with
    | some date => .ok (some date)
    | none => .error .InvalidDate
  | none => .ok none

/-- `BarcodeBuilder::build` (src/lib.rs lines 104-170): resolve the account,
check the country code, the cents and the euros bounds, resolve the reference
and the due date, and assemble the record.  The first failing check
short-circuits. -/
def build (b : BarcodeBuilder) : Except BuilderError Barcode :=
  match resolveAccount b.account_number with
  | .error e => .error e
  | .ok account_number =>
    if countryCode account_number ≠ "FI" then .error .AccountNotFinnish
    else if b.cents ≥ 100 then .error .InvalidCents
    else if b.euros ≥ 999999 then .error .SumTooLarge
    else
      match resolveReference b.version b.reference with
      | .error e => .error e
      | .ok reference =>
        match resolveDueDate b.due_date with
        | .error e => .error e
        | .ok due_date =>
          .ok ⟨b.version, account_number, b.euros, b.cents, reference, due_date⟩

/-- The `time` format `[year repr:last_two][month][day]`: last two decimal
digits of the year (absolute value of the truncated remainder, which equals
`|year| % 100`), then month and day, each zero-padded to two digits. -/
def formatDate (d : Date) : String :=
  padLeftZeros (natToString (d.year.natAbs % 100)) 2
    ++ padLeftZeros (natToString d.month) 2
    ++ padLeftZeros (natToString d.day) 2

/-- The final six characters of the output: the formatted due date, or the
literal `"000000"` when no due date is set. -/
def dateField : Option Date → String
  | some d => formatDate d
  | none => "000000"

/-- The V5 encoder's reference normalisation: a stored reference shorter than
two characters is padded on the right with zeros to two characters
(`format!("{:0<2}", ..)`), otherwise it is passed through unchanged (the
source's `dbg!` is an identity). -/
def refNro (reference : String) : String :=
  if strLen reference < 2 then padRightZeros reference 2 else reference

/-- `impl Display for Barcode` (src/lib.rs lines 263-314): the fixed-layout
rendering.  V4: version digit, account digits without the country code,
euros (6), cents (2), literal `"000"`, reference left-padded to 20, date (6).
V5: version digit, account digits, euros (6), cents (2), the first two
characters of the normalised reference, the rest left-padded to 21, date. -/
def render (r : Barcode) : String :=
  match r.version with
  | .V4 =>
    "4" ++ strDrop r.account_number.s 2
      ++ padLeftZeros (natToString r.euros) 6
      ++ padLeftZeros (natToString r.cents) 2
      ++ "000"
      ++ padLeftZeros r.reference 20
      ++ dateField r.due_date
  | .V5 =>
    "5" ++ strDrop r.account_number.s 2
      ++ padLeftZeros (natToString r.euros) 6
      ++ padLeftZeros (natToString r.cents) 2
      ++ strTake (refNro r.reference) 2
      ++ padLeftZeros (strDrop (refNro r.reference) 2) 21
      ++ dateField r.due_date

/-- Date formatting with its defensive failure path.  `time`'s `Date::format`
returns a `Result`, and the source unwraps it with
`expect("bug: formatting failed")`; formatting into an in-memory string
cannot fail (the error path exists only for io errors and malformed format
descriptions, the latter ruled out at compile time), so the model always
succeeds. -/
def formatDateChecked (d : Date) : Option String := some (formatDate d)

/-- The date field with the defensive date-formatting path made explicit. -/
def dateFieldChecked : Option Date → Option String
  | some d => formatDateChecked d
  | none => some "000000"

/-- The encoder with every internal defensive condition made explicit:
the date-formatting `expect`, the slice `account_number.as_str()[2..]`
(which would panic on a string shorter than two bytes), and for V5 the
slices `ref_nro[..2]` / `ref_nro[2..]` (which would panic were `ref_nro`
shorter than two bytes).  Returns `none` exactly when one of those
defensive conditions would fire. -/
def renderChecked (r : Barcode) : Option String :=
  match dateFieldChecked r.due_date with
  | none => none
  | some _ =>
    if strLen r.account_number.s < 2 then none
    else
      match r.version with
      | .V4 => some (render r)
      | .V5 =>
        if strLen (refNro r.reference) < 2 then none else some (render r)

/-- The 20-character V4 reference field: characters 28..47 of the output. -/
def v4RefField (out : String) : String := strTake (strDrop out 28) 20

/-- The 2-character V5 reference-type field: characters 25..26 of the output. -/
def v5TypeField (out : String) : String := strTake (strDrop out 25) 2

/-- The 21-character V5 reference-remainder field: characters 27..47. -/
def v5RemField (out : String) : String := strTake (strDrop out 27) 21

/-! ### Concrete values used by the claims -/

/-- The Finnish IBAN from the crate's doctest, in canonical form. -/
def ibanFI73 : Iban := ⟨"FI7331313001000058", by rfl⟩

/-- A valid German IBAN (non-FI), canonical form. -/
def ibanDE89 : Iban := ⟨"DE89370400440532013000", by rfl⟩

/-- C1's builder: all defaults, only the account string set. -/
def cbC1 : BarcodeBuilder := setAccountNumber defaultBuilder "FI73 3131 3001 0000 58"

/-- C2's counterexample builder: V5 (default) with reference `"RF"`. -/
def cbC2cex : BarcodeBuilder :=
  { defaultBuilder with
    account_number := some (Sum.inl ibanFI73),
    reference := some ("RF" ++ "") }

/-- C2's witness builder: V5 with a 17-digit RF reference. -/
def cbC2w : BarcodeBuilder :=
  { defaultBuilder with
    account_number := some (Sum.inl ibanFI73),
    reference := some ("RF" ++ "09868516259619897") }

/-- C3's counterexample builder: V4 with the empty reference string. -/
def cbC3cex : BarcodeBuilder :=
  { defaultBuilder with
    version := BarcodeVersion.V4,
    account_number := some (Sum.inl ibanFI73),
    reference := some "" }

/-- C3's witness builder: V4 with a 15-digit reference. -/
def cbC3w : BarcodeBuilder :=
  { defaultBuilder with
    version := BarcodeVersion.V4,
    account_number := some (Sum.inl ibanFI73),
    reference := some "868516259619897" }

/-- A 39-digit string whose value exceeds `u128::MAX`. -/
def nines39 : String := "999999999999999999999999999999999999999"

/-- C4's counterexample builder: V4 with the 39-digit reference. -/
def cbC4cex : BarcodeBuilder :=
  { defaultBuilder with
    version := BarcodeVersion.V4,
    account_number := some (Sum.inl ibanFI73),
    reference := some nines39 }

/-- C4's witness builder: V4 with a 21-digit reference that fits in `u128`. -/
def cbC4w : BarcodeBuilder :=
  { defaultBuilder with
    version := BarcodeVersion.V4,
    account_number := some (Sum.inl ibanFI73),
    reference := some "111111111111111111111" }

/-- C5's failing input: V4 with reference `"+123"`. -/
def cbC5 : BarcodeBuilder :=
  { defaultBuilder with
    version := BarcodeVersion.V4,
    account_number := some (Sum.inl ibanFI73),
    reference := some "+123" }

/-- C6's witness builder and the record its build produces. -/
def cbC6w : BarcodeBuilder :=
  { defaultBuilder with account_number := some (Sum.inl ibanFI73) }

def recC6w : Barcode := ⟨BarcodeVersion.V5, ibanFI73, 0, 0, "00", none⟩

/-- C7's witness builder: a German account supplied as a raw string. -/
def cbC7w : BarcodeBuilder :=
  { defaultBuilder with
    account_number := some (Sum.inr "DE89 3704 0044 0532 0130 00") }

/-- C9's witness builder and record: V4 with a short reference. -/
def cbC9w : BarcodeBuilder :=
  { defaultBuilder with
    version := BarcodeVersion.V4,
    account_number := some (Sum.inl ibanFI73),
    reference := some "1234" }

def recC9w : Barcode := ⟨BarcodeVersion.V4, ibanFI73, 0, 0, "1234", none⟩

/-- C10's witness builder and record: default V5 reference. -/
def cbC10w : BarcodeBuilder :=
  { defaultBuilder with
    version := BarcodeVersion.V4,
    account_number := some (Sum.inl ibanFI73),
    euros := 4883, cents := 15 }

def recC10w : Barcode := ⟨BarcodeVersion.V4, ibanFI73, 4883, 15, "0", none⟩

/-! ### Basic facts about the string helpers -/

theorem data_mk (l : List Char) : (⟨l⟩ : String).data = l := rfl

theorem strMk_data (s : String) : (⟨s.data⟩ : String) = s := rfl

theorem data_append (a b : String) : (a ++ b).data = a.data ++ b.data :=
  String.data_append a b

theorem padLeftZeros_length {s : String} {w : Nat} (h : s.data.length ≤ w) :
    (padLeftZeros s w).data.length = w := by
  simp only [padLeftZeros, data_mk, List.length_append, List.length_replicate]
  omega

theorem padRightZeros_length {s : String} {w : Nat} (h : s.data.length ≤ w) :
    (padRightZeros s w).data.length = w := by
  simp only [padRightZeros, data_mk, List.length_append, List.length_replicate]
  omega

theorem drop_len_append {p q : List Char} {n : Nat} (h : p.length = n) :
    (p ++ q).drop n = q := by
  subst h
  exact List.drop_left p q

theorem take_len_append {p q : List Char} {n : Nat} (h : p.length = n) :
    (p ++ q).take n = p := by
  subst h
  exact List.take_left p q

/-! ### Decimal rendering: length bounds -/

theorem natDigitsCore_length_le :
    ∀ (fuel n : Nat) (acc : List Char) (k : Nat), n < 10 ^ k → 1 ≤ k →
      (natDigitsCore fuel n acc).length ≤ k + acc.length := by
  intro fuel
  induction fuel with
  | zero =>
    intro n acc k _ hk
    simp only [natDigitsCore]
    omega
  | succ fuel ih =>
    intro n acc k h hk
    simp only [natDigitsCore]
    split
    · simp only [List.length_cons]
      omega
    · rename_i hne
      have h10 : 10 ≤ n := by
        by_contra hlt
        exact hne (Nat.div_eq_of_lt (by omega))
      have hk2 : 2 ≤ k := by
        rcases k with _ | _ | k
        · omega
        · rw [pow_one] at h
          omega
        · omega
      have hdiv : n / 10 < 10 ^ (k - 1) := by
        rw [Nat.div_lt_iff_lt_mul (by norm_num)]
        calc n < 10 ^ k := h
          _ = 10 ^ (k - 1) * 10 := by
              rw [← pow_succ]
              congr 1
              omega
      have hrec := ih (n / 10) (digitChar (n % 10) :: acc) (k - 1) hdiv (by omega)
      simp only [List.length_cons] at hrec
      omega

theorem natToString_length_le {n k : Nat} (h : n < 10 ^ k) (hk : 1 ≤ k) :
    (natToString n).data.length ≤ k := by
  have hrec := natDigitsCore_length_le (n + 1) n [] k h hk
  simpa [natToString] using hrec

/-! ### Digit strings and the u128 parse -/

theorem digitsVal_aux_lt :
    ∀ (cs : List Char) (acc B : Nat), (∀ c ∈ cs, isDigitChar c = true) → acc < B →
      cs.foldl (fun a c => a * 10 + charDigit c) acc < B * 10 ^ cs.length := by
  intro cs
  induction cs with
  | nil =>
    intro acc B _ hB
    simpa using hB
  | cons c cs ih =>
    intro acc B h hB
    have hc : charDigit c ≤ 9 := by
      have hcd := h c (List.mem_cons_self c cs)
      simp only [isDigitChar, Bool.and_eq_true, decide_eq_true_eq] at hcd
      simp only [charDigit]
      omega
    have hstep : acc * 10 + charDigit c < B * 10 := by omega
    have hrec := ih (acc * 10 + charDigit c) (B * 10)
      (fun x hx => h x (List.mem_cons_of_mem c hx)) hstep
    simp only [List.foldl_cons, List.length_cons]
    calc cs.foldl (fun a c => a * 10 + charDigit c) (acc * 10 + charDigit c)
        < B * 10 * 10 ^ cs.length := hrec
      _ = B * 10 ^ (cs.length + 1) := by ring

theorem digitsVal_lt {cs : List Char} (h : cs.all isDigitChar = true) :
    digitsVal cs < 10 ^ cs.length := by
  have hrec := digitsVal_aux_lt cs 0 1 (by simpa [List.all_eq_true] using h) (by omega)
  simpa [digitsVal] using hrec

theorem parseU128_of_digits {s : String} (hne : s.data ≠ [])
    (hd : s.data.all isDigitChar = true) (hle : digitsVal s.data ≤ U128MAX) :
    parseU128 s = some (digitsVal s.data) := by
  unfold parseU128
  rcases hcs : s.data with _ | ⟨c, cs⟩
  · exact absurd hcs hne
  · rw [hcs] at hd hle
    have hcne : ¬ c = '+' := by
      intro he
      subst he
      simp only [List.all_cons, Bool.and_eq_true] at hd
      exact absurd hd.1 (by decide)
    simp only [if_neg hcne, if_pos hd, if_pos hle]

theorem parseU128_some_ne_nil {s : String} {v : Nat} (h : parseU128 s = some v) :
    s.data ≠ [] := by
  intro he
  unfold parseU128 at h
  rw [he] at h
  simp at h

/-! ### The normalised V5 reference and the IBAN invariants -/

theorem two_le_refNro_length (s : String) : 2 ≤ (refNro s).data.length := by
  unfold refNro strLen
  split
  · rw [padRightZeros_length (by omega)]
  · omega

theorem refNro_length_le {s : String} (h : s.data.length ≤ 23) :
    (refNro s).data.length ≤ 23 := by
  unfold refNro strLen
  split
  · rw [padRightZeros_length (by omega)]
    omega
  · exact h

theorem iban_length_ge {i : Iban} : 4 ≤ i.s.data.length := by
  have hv := i.valid
  unfold ibanCheck at hv
  simp only [Bool.and_eq_true, decide_eq_true_eq] at hv
  exact hv.1.1.1.1.1.1

theorem iban_take_FI {i : Iban} (h : countryCode i = "FI") :
    i.s.data.take 2 = ['F', 'I'] := by
  have hdata : (countryCode i).data = ("FI" : String).data := by rw [h]
  simpa [countryCode, strTake] using hdata

theorem iban_FI_length {i : Iban} (h : countryCode i = "FI") :
    i.s.data.length = 18 := by
  have hv := i.valid
  unfold ibanCheck at hv
  rw [iban_take_FI h, if_pos rfl] at hv
  simp only [Bool.and_eq_true, decide_eq_true_eq] at hv
  exact hv.1.2.1

/-! ### The date field -/

theorem daysInMonth_le (y : Int) (m : Nat) : daysInMonth y m ≤ 31 := by
  unfold daysInMonth
  split
  any_goals omega
  split <;> omega

theorem dateField_length (od : Option Date) : (dateField od).data.length = 6 := by
  cases od with
  | none => rfl
  | some d =>
    have hy : (natToString (d.year.natAbs % 100)).data.length ≤ 2 :=
      natToString_length_le
        (by
          have := Nat.mod_lt d.year.natAbs (y := 100) (by omega)
          calc d.year.natAbs % 100 < 100 := this
            _ ≤ 10 ^ 2 := by norm_num)
        (by omega)
    have hmo : (natToString d.month).data.length ≤ 2 :=
      natToString_length_le
        (by
          have := d.hm2
          calc d.month ≤ 12 := this
            _ < 10 ^ 2 := by norm_num)
        (by omega)
    have hda : (natToString d.day).data.length ≤ 2 :=
      natToString_length_le
        (by
          have h1 := d.hd2
          have h2 := daysInMonth_le d.year d.month
          calc d.day ≤ 31 := le_trans h1 h2
            _ < 10 ^ 2 := by norm_num)
        (by omega)
    simp only [dateField, formatDate, data_append, List.length_append,
      padLeftZeros_length hy, padLeftZeros_length hmo, padLeftZeros_length hda]

/-! ### Inversion of the reference stage -/

theorem one_le_length_of_ne_nil {cs : List Char} (h : cs ≠ []) : 1 ≤ cs.length := by
  cases cs
  · exact absurd rfl h
  · simp

theorem resolveReference_ok_v4 {oref : Option String} {s : String}
    (h : resolveReference .V4 oref = .ok s) :
    1 ≤ s.data.length ∧ s.data.length ≤ 20 := by
  rcases oref with _ | rn
  · simp only [resolveReference, strLen] at h
    rw [if_neg (by decide)] at h
    obtain rfl : ("0" : String) = s := by simpa using h
    decide
  · simp only [resolveReference] at h
    split at h
    · simp at h
    · rename_i v hp
      split at h
      · simp at h
      · rename_i hlen
        obtain rfl : rn = s := by simpa using h
        have hne := parseU128_some_ne_nil hp
        unfold strLen at hlen
        exact ⟨one_le_length_of_ne_nil hne, by omega⟩

theorem resolveReference_ok_v5 {oref : Option String} {s : String}
    (h : resolveReference .V5 oref = .ok s) :
    1 ≤ s.data.length ∧ s.data.length ≤ 23 := by
  simp only [resolveReference] at h
  split at h
  · split at h
    · simp at h
    · rename_i v hp
      split at h
      · simp at h
      · rename_i hlen
        obtain rfl : strDrop (oref.getD "RF00") 2 = s := by simpa using h
        have hne := parseU128_some_ne_nil hp
        unfold strLen at hlen
        exact ⟨one_le_length_of_ne_nil hne, by omega⟩
  · simp at h

/-! ### Inversion of `build` -/

theorem build_ok_inv {b : BarcodeBuilder} {r : Barcode} (h : build b = .ok r) :
    countryCode r.account_number = "FI" ∧ r.cents < 100 ∧ r.euros < 999999 ∧
      r.version = b.version ∧
      resolveReference b.version b.reference = .ok r.reference := by
  unfold build at h
  split at h
  · simp at h
  · rename_i a hacc
    split at h
    · simp at h
    · rename_i hfi
      split at h
      · simp at h
      · rename_i hcents
        split at h
        · simp at h
        · rename_i heuros
          split at h
          · simp at h
          · rename_i reference href
            split at h
            · simp at h
            · rename_i due hdue
              obtain rfl : (⟨b.version, a, b.euros, b.cents, reference, due⟩ : Barcode) = r := by
                simpa using h
              rw [Nat.not_le] at hcents heuros
              exact ⟨of_not_not hfi, hcents, heuros, rfl, href⟩

/-! ### Forward computation of the reference stage and of `build` -/

theorem digitsVal_le_U128MAX_of_len {cs : List Char} (h : cs.all isDigitChar = true)
    (hlen : cs.length ≤ 38) : digitsVal cs ≤ U128MAX := by
  have h1 := digitsVal_lt h
  have h2 : (10 : Nat) ^ cs.length ≤ 10 ^ 38 := Nat.pow_le_pow_right (by norm_num) hlen
  have h3 : (10 : Nat) ^ 38 ≤ U128MAX + 1 := by norm_num [U128MAX]
  omega

theorem resolveReference_v4_digits {rn : String} (hne : rn.data ≠ [])
    (hd : rn.data.all isDigitChar = true) (hlen : rn.data.length ≤ 20) :
    resolveReference .V4 (some rn) = .ok rn := by
  have hp : parseU128 rn = some (digitsVal rn.data) :=
    parseU128_of_digits hne hd (digitsVal_le_U128MAX_of_len hd (by omega))
  simp only [resolveReference, hp]
  rw [if_neg (by unfold strLen; omega)]

theorem strDrop_RF (d : String) : strDrop ("RF" ++ d) 2 = d := by
  have hdata : ("RF" ++ d).data = 'R' :: 'F' :: d.data := by
    rw [data_append]
    rfl
  simp [strDrop, hdata, strMk_data]

theorem strStartsWith_RF (d : String) : strStartsWith ("RF" ++ d) "RF" = true := by
  unfold strStartsWith
  rw [data_append, take_len_append rfl]
  simp

theorem resolveReference_v5_digits {d : String} (hne : d.data ≠ [])
    (hd : d.data.all isDigitChar = true) (hlen : d.data.length ≤ 23) :
    resolveReference .V5 (some ("RF" ++ d)) = .ok d := by
  have hp : parseU128 d = some (digitsVal d.data) :=
    parseU128_of_digits hne hd (digitsVal_le_U128MAX_of_len hd (by omega))
  simp only [resolveReference, Option.getD_some, strStartsWith_RF, strDrop_RF, hp,
    if_true]
  rw [if_neg (by unfold strLen; omega)]

theorem build_ok_of (b : BarcodeBuilder) (iban : Iban) (refr : String) (od : Option Date)
    (hacc : resolveAccount b.account_number = .ok iban)
    (hfi : countryCode iban = "FI") (hc : b.cents < 100) (he : b.euros < 999999)
    (href : resolveReference b.version b.reference = .ok refr)
    (hdue : resolveDueDate b.due_date = .ok od) :
    build b = .ok ⟨b.version, iban, b.euros, b.cents, refr, od⟩ := by
  unfold build
  rw [hacc]
  dsimp only
  rw [if_neg (by simp [hfi]), if_neg (by omega), if_neg (by omega), href]
  dsimp only
  rw [hdue]

/-! ### Extraction of the reference fields from the rendered string -/

theorem v4_render_field {r : Barcode} (hv : r.version = .V4)
    (haccl : r.account_number.s.data.length = 18)
    (he : r.euros < 999999) (hc : r.cents < 100)
    (hr : r.reference.data.length ≤ 20) :
    v4RefField (render r) = padLeftZeros r.reference 20 := by
  have hdata : (render r).data =
      (("4" : String).data ++ (strDrop r.account_number.s 2).data
        ++ (padLeftZeros (natToString r.euros) 6).data
        ++ (padLeftZeros (natToString r.cents) 2).data
        ++ ("000" : String).data)
      ++ ((padLeftZeros r.reference 20).data ++ (dateField r.due_date).data) := by
    unfold render
    rw [hv]
    simp only [data_append, List.append_assoc]
  have ha16 : (strDrop r.account_number.s 2).data.length = 16 := by
    simp [strDrop, haccl]
  have he6 : (padLeftZeros (natToString r.euros) 6).data.length = 6 :=
    padLeftZeros_length (natToString_length_le
      (by
        have hpow : (10 : Nat) ^ 6 = 1000000 := by norm_num
        omega)
      (by omega))
  have hc2 : (padLeftZeros (natToString r.cents) 2).data.length = 2 :=
    padLeftZeros_length (natToString_length_le
      (by
        have hpow : (10 : Nat) ^ 2 = 100 := by norm_num
        omega)
      (by omega))
  have hPlen : (("4" : String).data ++ (strDrop r.account_number.s 2).data
      ++ (padLeftZeros (natToString r.euros) 6).data
      ++ (padLeftZeros (natToString r.cents) 2).data
      ++ ("000" : String).data).length = 28 := by
    simp only [List.length_append, ha16, he6, hc2]
    rfl
  have hreflen : (padLeftZeros r.reference 20).data.length = 20 :=
    padLeftZeros_length hr
  unfold v4RefField strTake strDrop
  rw [hdata, drop_len_append hPlen, take_len_append hreflen]

theorem v5_render_fields {r : Barcode} (hv : r.version = .V5)
    (haccl : r.account_number.s.data.length = 18)
    (he : r.euros < 999999) (hc : r.cents < 100)
    (hr : r.reference.data.length ≤ 23) :
    v5TypeField (render r) = strTake (refNro r.reference) 2 ∧
      v5RemField (render r) = padLeftZeros (strDrop (refNro r.reference) 2) 21 := by
  have ha16 : (strDrop r.account_number.s 2).data.length = 16 := by
    simp [strDrop, haccl]
  have he6 : (padLeftZeros (natToString r.euros) 6).data.length = 6 :=
    padLeftZeros_length (natToString_length_le
      (by
        have hpow : (10 : Nat) ^ 6 = 1000000 := by norm_num
        omega)
      (by omega))
  have hc2 : (padLeftZeros (natToString r.cents) 2).data.length = 2 :=
    padLeftZeros_length (natToString_length_le
      (by
        have hpow : (10 : Nat) ^ 2 = 100 := by norm_num
        omega)
      (by omega))
  have ht2 : (strTake (refNro r.reference) 2).data.length = 2 := by
    have h2 := two_le_refNro_length r.reference
    simp only [strTake, data_mk, List.length_take]
    omega
  have hrem21 : (padLeftZeros (strDrop (refNro r.reference) 2) 21).data.length = 21 := by
    apply padLeftZeros_length
    have h23 := refNro_length_le hr
    simp only [strDrop, data_mk, List.length_drop]
    omega
  constructor
  · have hdata : (render r).data =
        (("5" : String).data ++ (strDrop r.account_number.s 2).data
          ++ (padLeftZeros (natToString r.euros) 6).data
          ++ (padLeftZeros (natToString r.cents) 2).data)
        ++ ((strTake (refNro r.reference) 2).data
          ++ ((padLeftZeros (strDrop (refNro r.reference) 2) 21).data
          ++ (dateField r.due_date).data)) := by
      unfold render
      rw [hv]
      simp only [data_append, List.append_assoc]
    have hPlen : (("5" : String).data ++ (strDrop r.account_number.s 2).data
        ++ (padLeftZeros (natToString r.euros) 6).data
        ++ (padLeftZeros (natToString r.cents) 2).data).length = 25 := by
      simp only [List.length_append, ha16, he6, hc2]
      rfl
    unfold v5TypeField strTake strDrop
    rw [hdata, drop_len_append hPlen]
    rw [take_len_append (by simpa [strTake] using ht2)]
    rfl
  · have hdata : (render r).data =
        ((("5" : String).data ++ (strDrop r.account_number.s 2).data
          ++ (padLeftZeros (natToString r.euros) 6).data
          ++ (padLeftZeros (natToString r.cents) 2).data)
          ++ (strTake (refNro r.reference) 2).data)
        ++ ((padLeftZeros (strDrop (refNro r.reference) 2) 21).data
          ++ (dateField r.due_date).data) := by
      unfold render
      rw [hv]
      simp only [data_append, List.append_assoc]
    have hPlen : ((("5" : String).data ++ (strDrop r.account_number.s 2).data
        ++ (padLeftZeros (natToString r.euros) 6).data
        ++ (padLeftZeros (natToString r.cents) 2).data)
        ++ (strTake (refNro r.reference) 2).data).length = 27 := by
      simp only [List.length_append, ha16, he6, hc2, ht2]
      rfl
    unfold v5RemField strTake strDrop
    rw [hdata, drop_len_append hPlen]
    rw [take_len_append hrem21]
    rfl

/-! ### The claims -/

/-- Claim C1: a builder constructed with all defaults (version V5, euros 0,
cents 0, no reference, no due date) and only the account identifier set to
`"FI73 3131 3001 0000 58"` builds successfully, and the string rendering of
the record is exactly `"573313130010000580000000000000000000000000000000000000"`. -/
theorem claim_C1 :
    (build cbC1).map render =
      .ok "573313130010000580000000000000000000000000000000000000" := by
  rfl

/-- Claim C5 (code bug): contrary to the invariant that the stored reference
consists only of decimal digits, the V4 validator accepts the reference
`"+123"` (Rust's unsigned integer parse allows one leading `'+'`), so a
successful build stores a reference containing a non-digit character, which
the encoder then copies into the barcode string. -/
theorem claim_C5_bug :
    (build cbC5).map (fun r => r.reference) = .ok "+123" ∧
      ("+123" : String).data.all isDigitChar = false := by
  exact ⟨rfl, by decide⟩

/-- Claim C6: every record produced by a successful build, of either version
and for any magnitudes of the fields, renders to a string of exactly 54
characters. -/
theorem claim_C6 {b : BarcodeBuilder} {r : Barcode} (h : build b = .ok r) :
    (render r).data.length = 54 := by
  obtain ⟨hfi, hc, he, hv, href⟩ := build_ok_inv h
  have haccl : r.account_number.s.data.length = 18 := iban_FI_length hfi
  have ha16 : (strDrop r.account_number.s 2).data.length = 16 := by
    simp [strDrop, haccl]
  have he6 : (padLeftZeros (natToString r.euros) 6).data.length = 6 :=
    padLeftZeros_length (natToString_length_le
      (by
        have hpow : (10 : Nat) ^ 6 = 1000000 := by norm_num
        omega)
      (by omega))
  have hc2 : (padLeftZeros (natToString r.cents) 2).data.length = 2 :=
    padLeftZeros_length (natToString_length_le
      (by
        have hpow : (10 : Nat) ^ 2 = 100 := by norm_num
        omega)
      (by omega))
  have hdate := dateField_length r.due_date
  rw [← hv] at href
  cases hver : r.version with
  | V4 =>
    rw [hver] at href
    obtain ⟨hr1, hr20⟩ := resolveReference_ok_v4 href
    have hrf : (padLeftZeros r.reference 20).data.length = 20 :=
      padLeftZeros_length hr20
    have hdata : (render r).data =
        ("4" : String).data ++ ((strDrop r.account_number.s 2).data
          ++ ((padLeftZeros (natToString r.euros) 6).data
          ++ ((padLeftZeros (natToString r.cents) 2).data
          ++ (("000" : String).data
          ++ ((padLeftZeros r.reference 20).data
          ++ (dateField r.due_date).data))))) := by
      unfold render
      rw [hver]
      simp only [data_append, List.append_assoc]
    rw [hdata]
    simp only [List.length_append, ha16, he6, hc2, hrf, hdate]
    rfl
  | V5 =>
    rw [hver] at href
    obtain ⟨hr1, hr23⟩ := resolveReference_ok_v5 href
    have ht2 : (strTake (refNro r.reference) 2).data.length = 2 := by
      have h2 := two_le_refNro_length r.reference
      simp only [strTake, data_mk, List.length_take]
      omega
    have hrem21 : (padLeftZeros (strDrop (refNro r.reference) 2) 21).data.length = 21 := by
      apply padLeftZeros_length
      have h23 := refNro_length_le hr23
      simp only [strDrop, data_mk, List.length_drop]
      omega
    have hdata : (render r).data =
        ("5" : String).data ++ ((strDrop r.account_number.s 2).data
          ++ ((padLeftZeros (natToString r.euros) 6).data
          ++ ((padLeftZeros (natToString r.cents) 2).data
          ++ ((strTake (refNro r.reference) 2).data
          ++ ((padLeftZeros (strDrop (refNro r.reference) 2) 21).data
          ++ (dateField r.due_date).data))))) := by
      unfold render
      rw [hver]
      simp only [data_append, List.append_assoc]
    rw [hdata]
    simp only [List.length_append, ha16, he6, hc2, ht2, hrem21, hdate]
    rfl

/-- Claim C6, witness: the default V5 build against the doctest account has a
54-character rendering. -/
theorem claim_C6_witness : (render recC6w).data.length = 54 :=
  claim_C6 (b := cbC6w) (r := recC6w) (by rfl)

/-- Claim C7: whenever the account identifier resolves (from either the raw
string or the pre-validated form) to an identifier whose country code is not
`"FI"`, `build` fails with exactly `AccountNotFinnish`, regardless of every
other field. -/
theorem claim_C7 {b : BarcodeBuilder} {iban : Iban}
    (hacc : resolveAccount b.account_number = .ok iban)
    (hfi : countryCode iban ≠ "FI") :
    build b = .error BuilderError.AccountNotFinnish := by
  unfold build
  rw [hacc]
  dsimp only
  rw [if_pos hfi]

/-- Claim C7, witness: a German IBAN supplied as a raw string is rejected with
`AccountNotFinnish`. -/
theorem claim_C7_witness : build cbC7w = .error BuilderError.AccountNotFinnish :=
  @claim_C7 cbC7w ibanDE89 (by rfl) (by decide)

/-- Claim C8: for every builder state and every non-negative `n` in the `u32`
range, the `sum` setter produces exactly the builder state obtained by setting
euros to `n / 100` and cents to `n % 100`, changing nothing else. -/
theorem claim_C8 (b : BarcodeBuilder) (n : Nat) (h : n < 4294967296) :
    setSum b n = setCents (setEuros b (n / 100)) (n % 100) := rfl

/-- Claim C8, witness: splitting the sum 12345 into 123 euros and 45 cents. -/
theorem claim_C8_witness :
    setSum defaultBuilder 12345 = setCents (setEuros defaultBuilder 123) 45 :=
  claim_C8 defaultBuilder 12345 (by decide)

/-- Claim C9: for every record produced by a successful build, the encoder's
internal defensive conditions (the date-formatting assertion, the slicing of
the account digit string, and the slicing of the V5 reference type/remainder
fields) cannot fire: the checked encoder always returns the rendered string. -/
theorem claim_C9 {b : BarcodeBuilder} {r : Barcode} (h : build b = .ok r) :
    renderChecked r = some (render r) := by
  have hacc4 : 4 ≤ r.account_number.s.data.length := iban_length_ge
  have hdc : dateFieldChecked r.due_date = some (dateField r.due_date) := by
    cases r.due_date <;> rfl
  unfold renderChecked
  rw [hdc]
  rw [if_neg (by unfold strLen; omega)]
  cases hver : r.version with
  | V4 => rfl
  | V5 =>
    have h2 := two_le_refNro_length r.reference
    rw [if_neg (by unfold strLen; omega)]

/-- Claim C9, witness: the checked encoder succeeds on a concrete V4 record. -/
theorem claim_C9_witness : renderChecked recC9w = some (render recC9w) :=
  claim_C9 (b := cbC9w) (r := recC9w) (by rfl)

/-- Claim C10: for every record produced by a successful build, of either
version, the stored reference string is non-empty. -/
theorem claim_C10 {b : BarcodeBuilder} {r : Barcode} (h : build b = .ok r) :
    1 ≤ r.reference.data.length := by
  obtain ⟨_, _, _, hv, href⟩ := build_ok_inv h
  rw [← hv] at href
  cases hver : r.version with
  | V4 =>
    rw [hver] at href
    exact (resolveReference_ok_v4 href).1
  | V5 =>
    rw [hver] at href
    exact (resolveReference_ok_v5 href).1

/-- Claim C10, witness: the defaulted V4 reference `"0"` is non-empty. -/
theorem claim_C10_witness : 1 ≤ recC10w.reference.data.length :=
  claim_C10 (b := cbC10w) (r := recC10w) (by rfl)

/-- Claim C2, counterexample: the builder satisfies every hypothesis of the
claim with the digit string `d = ""` (so the reference is `"RF"`, and `d` has
length 0 ≤ 23 and is vacuously all digits), yet `build` fails with
`InvalidReference`, because the empty remainder does not parse as an integer. -/
theorem claim_C2_counterexample :
    (cbC2cex.version = BarcodeVersion.V5 ∧
      resolveAccount cbC2cex.account_number = .ok ibanFI73 ∧
      countryCode ibanFI73 = "FI" ∧
      cbC2cex.cents < 100 ∧ cbC2cex.euros < 999999 ∧
      cbC2cex.reference = some ("RF" ++ "") ∧
      ("" : String).data.all isDigitChar = true ∧
      ("" : String).data.length ≤ 23) ∧
    build cbC2cex = .error BuilderError.InvalidReference := by
  exact ⟨⟨rfl, rfl, rfl, by decide, by decide, rfl, rfl, by decide⟩, rfl⟩

/-- Claim C2 (amended): for every V5 builder whose account resolves to a valid
FI identifier, with valid euros and cents, whose reference is `"RF"` followed
by a non-empty digit string `d` of length ≤ 23, and whose due date resolves,
build succeeds; in the encoded string, if `d` has length < 2 the
reference-type field is `d` padded on the right with zeros to 2 characters and
the 21-character remainder field is all zeros, and if `d` has length ≥ 2 the
type field is the first two characters of `d` and the remainder is the rest of
`d` left-padded with zeros to 21 digits. -/
theorem claim_C2_amended (b : BarcodeBuilder) (iban : Iban) (d : String)
    (od : Option Date)
    (hacc : resolveAccount b.account_number = .ok iban)
    (hfi : countryCode iban = "FI")
    (hv : b.version = BarcodeVersion.V5)
    (hc : b.cents < 100) (he : b.euros < 999999)
    (href : b.reference = some ("RF" ++ d))
    (hdig : d.data.all isDigitChar = true)
    (hlen1 : 1 ≤ d.data.length) (hlen : d.data.length ≤ 23)
    (hdue : resolveDueDate b.due_date = .ok od) :
    ∃ r, build b = .ok r ∧ r.reference = d ∧
      (if d.data.length < 2
       then v5TypeField (render r) = padRightZeros d 2 ∧
            v5RemField (render r) = ⟨List.replicate 21 '0'⟩
       else v5TypeField (render r) = strTake d 2 ∧
            v5RemField (render r) = padLeftZeros (strDrop d 2) 21) := by
  have hne : d.data ≠ [] := by
    intro hnil
    rw [hnil] at hlen1
    simp at hlen1
  have hrr : resolveReference b.version b.reference = .ok d := by
    rw [hv, href]
    exact resolveReference_v5_digits hne hdig hlen
  refine ⟨⟨b.version, iban, b.euros, b.cents, d, od⟩,
    build_ok_of b iban d od hacc hfi hc he hrr hdue, rfl, ?_⟩
  have hfields := v5_render_fields
    (r := ⟨b.version, iban, b.euros, b.cents, d, od⟩)
    hv (iban_FI_length hfi) he hc hlen
  by_cases hlt : d.data.length < 2
  · rw [if_pos hlt]
    have hrn : refNro d = padRightZeros d 2 := by
      unfold refNro strLen
      rw [if_pos hlt]
    have hlen2 : (padRightZeros d 2).data.length = 2 :=
      padRightZeros_length (by omega)
    have hT : strTake (padRightZeros d 2) 2 = padRightZeros d 2 := by
      unfold strTake
      rw [List.take_of_length_le (by omega)]
    have hR : strDrop (padRightZeros d 2) 2 = ⟨[]⟩ := by
      unfold strDrop
      rw [List.drop_eq_nil_iff.mpr (by omega)]
    refine ⟨?_, ?_⟩
    · rw [hfields.1, hrn, hT]
    · rw [hfields.2, hrn, hR]
      simp [padLeftZeros]
  · rw [if_neg hlt]
    have hrn : refNro d = d := by
      unfold refNro strLen
      rw [if_neg hlt]
    exact ⟨by rw [hfields.1, hrn], by rw [hfields.2, hrn]⟩

/-- Claim C2, witness: the amended claim applied to a concrete V5 builder with
a 17-digit RF reference. -/
theorem claim_C2_witness :
    ∃ r, build cbC2w = .ok r ∧ r.reference = "09868516259619897" ∧
      (if ("09868516259619897" : String).data.length < 2
       then v5TypeField (render r) = padRightZeros "09868516259619897" 2 ∧
            v5RemField (render r) = ⟨List.replicate 21 '0'⟩
       else v5TypeField (render r) = strTake "09868516259619897" 2 ∧
            v5RemField (render r) =
              padLeftZeros (strDrop "09868516259619897" 2) 21) :=
  claim_C2_amended cbC2w ibanFI73 "09868516259619897" none rfl rfl rfl
    (by decide) (by decide) rfl (by decide) (by decide) (by decide) rfl

/-- Claim C3, counterexample: the empty string satisfies every hypothesis of
the claim (it consists only of digits, vacuously, and has length 0 ≤ 20), yet
the V4 build fails with `InvalidReference`, because the empty string does not
parse as an integer. -/
theorem claim_C3_counterexample :
    (cbC3cex.version = BarcodeVersion.V4 ∧
      resolveAccount cbC3cex.account_number = .ok ibanFI73 ∧
      countryCode ibanFI73 = "FI" ∧
      cbC3cex.cents < 100 ∧ cbC3cex.euros < 999999 ∧
      cbC3cex.reference = some "" ∧
      ("" : String).data.all isDigitChar = true ∧
      ("" : String).data.length ≤ 20) ∧
    build cbC3cex = .error BuilderError.InvalidReference := by
  exact ⟨⟨rfl, rfl, rfl, by decide, by decide, rfl, rfl, by decide⟩, rfl⟩

/-- Claim C3 (amended): for every V4 builder whose account resolves to a valid
FI identifier, with valid euros and cents, whose reference is a non-empty
string of at most 20 decimal digits, and whose due date resolves, build
succeeds and the 20-character reference field of the encoded string is the
reference zero-padded on the left to 20 digits. -/
theorem claim_C3_amended (b : BarcodeBuilder) (iban : Iban) (rn : String)
    (od : Option Date)
    (hacc : resolveAccount b.account_number = .ok iban)
    (hfi : countryCode iban = "FI")
    (hv : b.version = BarcodeVersion.V4)
    (hc : b.cents < 100) (he : b.euros < 999999)
    (href : b.reference = some rn)
    (hdig : rn.data.all isDigitChar = true)
    (hlen1 : 1 ≤ rn.data.length) (hlen : rn.data.length ≤ 20)
    (hdue : resolveDueDate b.due_date = .ok od) :
    ∃ r, build b = .ok r ∧ r.reference = rn ∧
      v4RefField (render r) = padLeftZeros rn 20 := by
  have hne : rn.data ≠ [] := by
    intro hnil
    rw [hnil] at hlen1
    simp at hlen1
  have hrr : resolveReference b.version b.reference = .ok rn := by
    rw [hv, href]
    exact resolveReference_v4_digits hne hdig hlen
  refine ⟨⟨b.version, iban, b.euros, b.cents, rn, od⟩,
    build_ok_of b iban rn od hacc hfi hc he hrr hdue, rfl, ?_⟩
  exact v4_render_field
    (r := ⟨b.version, iban, b.euros, b.cents, rn, od⟩)
    hv (iban_FI_length hfi) he hc hlen

/-- Claim C3, witness: the amended claim applied to a concrete V4 builder with
a 15-digit reference. -/
theorem claim_C3_witness :
    ∃ r, build cbC3w = .ok r ∧ r.reference = "868516259619897" ∧
      v4RefField (render r) = padLeftZeros "868516259619897" 20 :=
  claim_C3_amended cbC3w ibanFI73 "868516259619897" none rfl rfl rfl
    (by decide) (by decide) rfl (by decide) (by decide) (by decide) rfl

/-- Claim C4, counterexample: a V4 builder whose reference is a digit-only
string of 39 nines satisfies every hypothesis of the claim (digit-only,
length over the limit of 20, all earlier checks pass), but its value exceeds
`u128::MAX`, so the parse performed before the length check fails and `build`
returns `InvalidReference`, not `ReferenceTooLarge`: the parse is into a
128-bit integer, not arbitrary precision. -/
theorem claim_C4_counterexample :
    (cbC4cex.version = BarcodeVersion.V4 ∧
      resolveAccount cbC4cex.account_number = .ok ibanFI73 ∧
      countryCode ibanFI73 = "FI" ∧
      cbC4cex.cents < 100 ∧ cbC4cex.euros < 999999 ∧
      cbC4cex.reference = some nines39 ∧
      nines39.data.all isDigitChar = true ∧
      20 < nines39.data.length) ∧
    build cbC4cex = .error BuilderError.InvalidReference ∧
    BuilderError.InvalidReference ≠ BuilderError.ReferenceTooLarge := by
  refine ⟨⟨rfl, rfl, rfl, by decide, by decide, rfl, by decide, by decide⟩, ?_, by decide⟩
  rfl

/-- Claim C4 (amended): for every builder whose reference is digit-only and
over the version's length limit (more than 20 digits for V4; for V5, `"RF"`
plus more than 23 digits) and whose earlier checks pass, build fails with
exactly `ReferenceTooLarge` provided the digit string's numeric value fits in
`u128`; a digit string whose value exceeds `u128::MAX` instead fails earlier
with `InvalidReference`, because the reference is parsed as a 128-bit
integer, not with arbitrary precision. -/
theorem claim_C4_amended (b : BarcodeBuilder) (iban : Iban)
    (hacc : resolveAccount b.account_number = .ok iban)
    (hfi : countryCode iban = "FI")
    (hc : b.cents < 100) (he : b.euros < 999999)
    (href : (b.version = BarcodeVersion.V4 ∧
        ∃ rn, b.reference = some rn ∧ rn.data.all isDigitChar = true ∧
          20 < rn.data.length ∧ digitsVal rn.data ≤ U128MAX) ∨
      (b.version = BarcodeVersion.V5 ∧
        ∃ d, b.reference = some ("RF" ++ d) ∧ d.data.all isDigitChar = true ∧
          23 < d.data.length ∧ digitsVal d.data ≤ U128MAX)) :
    build b = .error BuilderError.ReferenceTooLarge := by
  have hrr : resolveReference b.version b.reference =
      .error BuilderError.ReferenceTooLarge := by
    rcases href with ⟨hv, rn, hrn, hdig, hlong, hval⟩ | ⟨hv, d, hrn, hdig, hlong, hval⟩
    · rw [hv, hrn]
      have hne : rn.data ≠ [] := by
        intro hnil
        rw [hnil] at hlong
        simp at hlong
      have hp : parseU128 rn = some (digitsVal rn.data) :=
        parseU128_of_digits hne hdig hval
      simp only [resolveReference, hp]
      rw [if_pos (by unfold strLen; omega)]
    · rw [hv, hrn]
      have hne : d.data ≠ [] := by
        intro hnil
        rw [hnil] at hlong
        simp at hlong
      have hp : parseU128 d = some (digitsVal d.data) :=
        parseU128_of_digits hne hdig hval
      simp only [resolveReference, Option.getD_some, strStartsWith_RF, strDrop_RF,
        hp, if_true]
      rw [if_pos (by unfold strLen; omega)]
  unfold build
  rw [hacc]
  dsimp only
  rw [if_neg (by simp [hfi]), if_neg (by omega), if_neg (by omega), hrr]

/-- Claim C4, witness: a V4 builder with a 21-digit reference whose value fits
in `u128` fails with exactly `ReferenceTooLarge`. -/
theorem claim_C4_witness : build cbC4w = .error BuilderError.ReferenceTooLarge :=
  claim_C4_amended cbC4w ibanFI73 rfl rfl (by decide) (by decide)
    (Or.inl ⟨rfl, "111111111111111111111", rfl, by decide, by decide, by decide⟩)
